import Mathlib

/-!
Shallow embedding of the Striker-Analitics browser application
(src/App.tsx, src/types.ts, src/services/geminiService.ts,
src/components/CameraCapture.tsx, src/components/VideoUploader.tsx,
src/components/AnalysisResult.tsx), together with theorems settling the
frozen specification claims about it.

JavaScript strings are embedded as Lean `String`; `message.toLowerCase()`
is embedded by an explicit ASCII case map (every string the program
compares is ASCII), and `lowerMsg.includes(pat)` by an explicit substring
scan, both written with structural recursion so that the kernel can
evaluate them on concrete inputs.
-/

namespace Striker

/-- `leadsWith pat cs` is true when `pat` is an initial segment of `cs`
(the character-list core of JavaScript `startsWith`). -/
def leadsWith : List Char → List Char → Bool
  | [], _ => true
  | _ :: _, [] => false
  | p :: ps, c :: cs => p == c && leadsWith ps cs

/-- `hasSubList pat cs` is true when `pat` occurs contiguously in `cs`
(the character-list core of JavaScript `includes`). -/
def hasSubList (pat : List Char) : List Char → Bool
  | [] => pat.isEmpty
  | c :: cs => leadsWith pat (c :: cs) || hasSubList pat cs

/-- JavaScript `s.includes(pat)`. -/
def strContains (s pat : String) : Bool :=
  hasSubList pat.data s.data

/-- JavaScript `s.startsWith(pat)`. -/
def strStartsWith (s pat : String) : Bool :=
  leadsWith pat.data s.data

/-- ASCII lower-casing of one character (the fragment of JavaScript
`toLowerCase` exercised by the program's ASCII strings). -/
def lowChar (c : Char) : Char :=
  if 65 ≤ c.toNat ∧ c.toNat ≤ 90 then Char.ofNat (c.toNat + 32) else c

/-- JavaScript `s.toLowerCase()` on ASCII strings. -/
def lowerStr (s : String) : String :=
  ⟨s.data.map lowChar⟩

/-! ## Data model (src/types.ts) -/

/-- `MetricData` (src/types.ts lines 1-5). -/
structure MetricData where
  value : Int
  target : Int
  status : String
deriving DecidableEq

/-- `Improvement` (src/types.ts lines 7-11). -/
structure Improvement where
  issue : String
  drill : String
  instructions : List String
deriving DecidableEq

/-- The `technical_data` record shape (src/types.ts lines 21-24). -/
structure TechnicalData where
  torso_angle : MetricData
  plant_foot_offset : MetricData
deriving DecidableEq

/-- The `coaching_tips` record shape (src/types.ts lines 25-29); the
constructor is renamed because `mk` is a field. -/
structure CoachingTips where
  tips ::
  en : String
  mk : String
  es : String
deriving DecidableEq

/-- The `status: 'success' | 'error'` tag (src/types.ts line 14). -/
inductive RespStatus where
  | success
  | error
deriving DecidableEq

set_option synthInstance.maxHeartbeats 400000 in
/-- `AnalysisResponse` (src/types.ts lines 13-30): every field except
`status` is optional. -/
structure AnalysisResponse where
  status : RespStatus
  form_score : Option Int := none
  score_label : Option String := none
  score_color : Option String := none
  action_detected : Option String := none
  key_strengths : Option (List String) := none
  areas_for_improvement : Option (List Improvement) := none
  technical_data : Option TechnicalData := none
  coaching_tips : Option CoachingTips := none
deriving DecidableEq

/-- `AppStatus` (src/types.ts lines 37-42). -/
inductive AppStatus where
  | IDLE
  | ANALYZING
  | SUCCESS
  | ERROR
deriving DecidableEq

/-- `InputMode` (src/App.tsx line 9). -/
inductive InputMode where
  | MENU
  | UPLOAD
  | CAMERA
deriving DecidableEq

/-- A browser `File` value, as far as the application inspects it. -/
structure AppFile where
  name : String
  mime : String
deriving DecidableEq

/-! ## Application State Controller (src/App.tsx) -/

/-- The six `useState` cells of the `App` component
(src/App.tsx lines 12-18). -/
structure AppState where
  status : AppStatus
  inputMode : InputMode
  result : Option AnalysisResponse
  selectedFile : Option AppFile
  videoUrl : Option String
  errorMsg : Option String
deriving DecidableEq

/-- `handleFileSelect` (src/App.tsx lines 20-30): stages the file, stores a
fresh object URL `url` for it, and resets status, result, error and input
mode. `url` stands for the value returned by `URL.createObjectURL(file)`. -/
def handleFileSelect (s : AppState) (file : AppFile) (url : String) : AppState :=
  { s with
    selectedFile := some file
    videoUrl := some url
    status := AppStatus.IDLE
    result := none
    errorMsg := none
    inputMode := InputMode.MENU }

/-- Fallback message, src/App.tsx line 59. -/
def defaultErrMsg : String :=
  "An unexpected error occurred during analysis. Please try again."

/-- src/App.tsx line 65. -/
def configErrMsg : String :=
  "Configuration Error: API Key is missing or invalid."

/-- src/App.tsx line 67. -/
def safetyErrMsg : String :=
  "Analysis blocked: The video content was flagged by safety filters. Please ensure the video clearly shows sports training."

/-- src/App.tsx line 69. -/
def rateLimitMsg : String :=
  "Usage limit exceeded. The AI service is busy, please try again in a few minutes."

/-- src/App.tsx line 71. -/
def overloadedMsg : String :=
  "The AI service is currently overloaded. Please wait a moment and try again."

/-- src/App.tsx line 73. -/
def networkErrMsg : String :=
  "Network Error: Please check your internet connection."

/-- src/App.tsx line 75. -/
def jsonErrMsg : String :=
  "Data Error: The AI response could not be processed. Please try a clearer video clip."

/-- The `catch` block's message classification (src/App.tsx lines 59-78),
for the `err instanceof Error` case: the thrown message is lower-cased and
matched against the branch markers in source order; otherwise the thrown
text itself is shown when its length is in (5, 200), else the generic
default. -/
def classifyError (message : String) : String :=
  let lowerMsg := lowerStr message
  if strContains lowerMsg "api key" then configErrMsg
  else if strContains lowerMsg "safety" || strContains lowerMsg "blocked" then safetyErrMsg
  else if strContains lowerMsg "quota" || strContains lowerMsg "429" then rateLimitMsg
  else if strContains lowerMsg "503" || strContains lowerMsg "overloaded" then overloadedMsg
  else if strContains lowerMsg "fetch" || strContains lowerMsg "network" then networkErrMsg
  else if strContains lowerMsg "json" then jsonErrMsg
  else if 5 < message.length ∧ message.length < 200 then message
  else defaultErrMsg

/-- The `Error` thrown by `handleAnalyze` when the adapter's response has
`status === 'error'` (src/App.tsx line 50). -/
def unclearVideoMsg : String :=
  "Analysis failed: The video was unclear or not a recognized football drill. Please try again with a clearer video."

/-- What `await analyzeVideo(selectedFile)` did: resolved with a response,
or threw an `Error` carrying `msg`. -/
inductive AdapterOutcome where
  | ok (resp : AnalysisResponse)
  | thrown (msg : String)
deriving DecidableEq

/-- The `catch` block of `handleAnalyze` (src/App.tsx lines 55-82):
status becomes `ERROR` and the classified message is stored. -/
def applyCatch (s : AppState) (msg : String) : AppState :=
  { s with status := AppStatus.ERROR, errorMsg := some (classifyError msg) }

/-- `handleAnalyze` (src/App.tsx lines 39-83). The returned Boolean
records whether `analyzeVideo` was invoked. With no staged file the guard
`if (!selectedFile) return` fires before any state update. Otherwise
status becomes `ANALYZING`, the error is cleared, and the adapter outcome
is handled: a response with `status === 'error'` raises the fixed
unclear-video `Error` into the `catch`; a success response is stored with
status `SUCCESS`; a thrown message goes through the `catch`. -/
def handleAnalyze (s : AppState) (outcome : AdapterOutcome) : AppState × Bool :=
  match s.selectedFile with
  | none => (s, false)
  | some _ =>
    let s1 : AppState := { s with status := AppStatus.ANALYZING, errorMsg := none }
    match outcome with
    | AdapterOutcome.ok data =>
      if data.status = RespStatus.error then
        (applyCatch s1 unclearVideoMsg, true)
      else
        ({ s1 with result := some data, status := AppStatus.SUCCESS }, true)
    | AdapterOutcome.thrown msg => (applyCatch s1 msg, true)

/-- `resetApp` (src/App.tsx lines 85-92). -/
def resetApp (_s : AppState) : AppState :=
  { status := AppStatus.IDLE
    inputMode := InputMode.MENU
    result := none
    selectedFile := none
    videoUrl := none
    errorMsg := none }

/-- The render guard of the result view (src/App.tsx line 290):
`result && status === AppStatus.SUCCESS && videoUrl`. -/
def rendersResultView (s : AppState) : Bool :=
  s.result.isSome && s.status == AppStatus.SUCCESS && s.videoUrl.isSome

/-! ## Analysis Request Adapter (src/services/geminiService.ts) -/

/-- The message of the `Error` thrown by `analyzeVideo` when the API key
is absent (src/services/geminiService.ts line 110). -/
def apiKeyMissingMsg : String :=
  "API Key is missing. Please check your environment configuration."

/-- The externally observable steps `analyzeVideo` performs after its
credential check: base64-encoding the file (`fileToGenerativePart`) and
issuing the single `generateContent` request. -/
inductive AnalyzeStep where
  | encodeFile
  | issueRequest
deriving DecidableEq

/-- `analyzeVideo` (src/services/geminiService.ts lines 107-151).
`apiKey` is `process.env.API_KEY` (`none` for an unset variable); the
JavaScript guard `if (!apiKey)` also treats the empty string as missing.
`reply` abstracts everything after the request is issued (the transport
throwing, the empty-text and JSON-parse errors, or a parsed response);
it is reached only on the branch that actually issues the request.
Returns the ordered list of steps performed and the outcome. -/
def analyzeVideoRun (apiKey : Option String)
    (reply : Except String AnalysisResponse) :
    List AnalyzeStep × Except String AnalysisResponse :=
  if apiKey.getD "" = "" then
    ([], Except.error apiKeyMissingMsg)
  else
    ([AnalyzeStep.encodeFile, AnalyzeStep.issueRequest], reply)

/-! ## Result Presentation (src/components/AnalysisResult.tsx) -/

/-- The three coaching-text languages (AnalysisResult.tsx `useState` of
`language`). -/
inductive Lang where
  | en
  | mk
  | es
deriving DecidableEq

/-- `coaching_tips[language]`. -/
def coachingAt (c : CoachingTips) : Lang → String
  | Lang.en => c.en
  | Lang.mk => c.mk
  | Lang.es => c.es

/-- The local values of the `AnalysisResult` component after its
destructuring of `data` with defaults. -/
structure ResultView where
  form_score : Int
  score_label : String
  action_detected : String
  key_strengths : List String
  areas_for_improvement : List Improvement
  technical_data : Option TechnicalData
  coaching_tips : CoachingTips
deriving DecidableEq

/-- The defaulted destructuring at the top of the `AnalysisResult`
component: `const { form_score = 0, score_label = "N/A",
action_detected = "Unknown", key_strengths = [],
areas_for_improvement = [], technical_data,
coaching_tips = { en: "", mk: "", es: "" } } = data`. -/
def destructureResult (d : AnalysisResponse) : ResultView :=
  { form_score := d.form_score.getD 0
    score_label := d.score_label.getD "N/A"
    action_detected := d.action_detected.getD "Unknown"
    key_strengths := d.key_strengths.getD []
    areas_for_improvement := d.areas_for_improvement.getD []
    technical_data := d.technical_data
    coaching_tips := d.coaching_tips.getD (CoachingTips.tips "" "" "") }

/-- JavaScript whitespace test for the characters occurring here. -/
def isSpaceChar (c : Char) : Bool :=
  c == ' ' || c == '\t' || c == '\n' || c == '\r'

/-- JavaScript `s.trim()` on ASCII strings. -/
def trimAscii (s : String) : String :=
  ⟨((s.data.dropWhile isSpaceChar).reverse.dropWhile isSpaceChar).reverse⟩

/-- One improvement card of the on-screen report: the issue line (with
the `critical:` marker split off via `substring(9).trim()` as in the
component), the drill line, and one line per instruction step. -/
def renderImprovement (it : Improvement) : List String :=
  (if strStartsWith (lowerStr it.issue) "critical:" then
    ["CRITICAL: " ++ trimAscii (String.mk (it.issue.data.drop 9))]
  else
    [it.issue])
  ++ ["Drill: " ++ it.drill]
  ++ it.instructions.map (fun step => "Step: " ++ step)

/-- The textual content of the rendered report, in document order: header
card (action, score, label), coaching text in the selected language, the
technical-data card (rendered only when `technical_data` is present, as in
the component's `technical_data && ...` guard), the strengths list and the
improvement cards. Every field access goes through the defaulted
`ResultView`, mirroring the component body. -/
def renderReport (v : ResultView) (l : Lang) : List String :=
  [ "Detected Action: " ++ v.action_detected
  , "Score: " ++ toString v.form_score
  , "Label: " ++ v.score_label
  , "Coach: " ++ coachingAt v.coaching_tips l ]
  ++ (match v.technical_data with
      | some t =>
        [ "Torso Angle: " ++ toString t.torso_angle.value
            ++ " target " ++ toString t.torso_angle.target
            ++ " " ++ t.torso_angle.status
        , "Plant Foot Offset: " ++ toString t.plant_foot_offset.value
            ++ " target " ++ toString t.plant_foot_offset.target
            ++ " " ++ t.plant_foot_offset.status ]
      | none => [])
  ++ v.key_strengths.map (fun s => "Strength: " ++ s)
  ++ (v.areas_for_improvement.map renderImprovement).flatten

/-! ## Media Capture Controller (src/components/CameraCapture.tsx) -/

/-- Observable events of the capture sequence. -/
inductive CamEvent where
  | countdownTick (v : Nat)
  | beep (freq : Nat) (wave : String)
  | waitOneSecond
  | recordStart
deriving DecidableEq

/-- The countdown loop `for (let i = n; i > 0; i--)` of
`handleStartSequence`: per iteration, show the value, play the 800 Hz
sine cue, await a one-second timeout. -/
def countdownFrom : Nat → List CamEvent
  | 0 => []
  | Nat.succ n =>
    CamEvent.countdownTick (n + 1)
      :: CamEvent.beep 800 "sine"
      :: CamEvent.waitOneSecond
      :: countdownFrom n

/-- `handleStartSequence` (src/components/CameraCapture.tsx lines
105-122): with the timer toggle on, the 5..1 countdown runs, the final
1200 Hz square start cue plays, then `startRecording()`; with the toggle
off, `startRecording()` immediately. -/
def handleStartSequenceTrace (useTimer : Bool) : List CamEvent :=
  if useTimer then
    countdownFrom 5 ++ [CamEvent.beep 1200 "square", CamEvent.recordStart]
  else
    [CamEvent.recordStart]

/-- The countdown values shown by a trace, in order. -/
def countdownValuesOf (es : List CamEvent) : List Nat :=
  es.filterMap fun e =>
    match e with
    | CamEvent.countdownTick v => some v
    | _ => none

/-- The audio cues of a trace, in order, as (frequency, waveform). -/
def beepsOf (es : List CamEvent) : List (Nat × String) :=
  es.filterMap fun e =>
    match e with
    | CamEvent.beep f w => some (f, w)
    | _ => none

/-- The events of a trace before the first `recordStart`. -/
def eventsBeforeRecord (es : List CamEvent) : List CamEvent :=
  es.takeWhile fun e =>
    match e with
    | CamEvent.recordStart => false
    | _ => true

/-- The recording-session state of the capture component: the
`MediaRecorder`'s activity (`state === 'recording'`), the `isRecording`
React flag, the `recordingTime` counter, whether the 1-second
`setInterval` is set, how many files `onstop` has handed to `onCapture`,
and how many times the interval callback took its `prev >= 10` auto-stop
branch. -/
structure RecState where
  recorderActive : Bool
  isRecording : Bool
  recordingTime : Nat
  intervalActive : Bool
  filesEmitted : Nat
  autoStopCalls : Nat
deriving DecidableEq

/-- The state right after `startRecording` (src/components/
CameraCapture.tsx lines 124-164): recorder started, `recordingTime` reset
to 0, interval installed, no file emitted yet. -/
def startRecordingState : RecState :=
  { recorderActive := true
    isRecording := true
    recordingTime := 0
    intervalActive := true
    filesEmitted := 0
    autoStopCalls := 0 }

/-- `stopRecording` (src/components/CameraCapture.tsx lines 166-175):
only when the recorder is in state `recording`, stop it (its `onstop`
handler then builds the blob and calls `onCapture` with one file), clear
the `isRecording` flag and the interval. -/
def stopRecording (s : RecState) : RecState :=
  if s.recorderActive then
    { s with
      recorderActive := false
      filesEmitted := s.filesEmitted + 1
      isRecording := false
      intervalActive := false }
  else s

/-- One firing of the 1-second interval callback (src/components/
CameraCapture.tsx lines 155-163): only while the interval is installed,
the updater receives `prev = recordingTime`; if `prev >= 10` it calls
`stopRecording()` and returns 10, else it returns `prev + 1`. -/
def recTick (s : RecState) : RecState :=
  if s.intervalActive then
    if 10 ≤ s.recordingTime then
      { stopRecording s with
        recordingTime := 10
        autoStopCalls := s.autoStopCalls + 1 }
    else
      { s with recordingTime := s.recordingTime + 1 }
  else s

/-- The session state after `startRecording` followed by `n` firings of
the interval (the tick at `n` seconds of elapsed recording). -/
def runTicks : Nat → RecState
  | 0 => startRecordingState
  | Nat.succ n => recTick (runTicks n)

/-- The browser resources held by the capture component at any moment:
one stopped-flag per acquired stream track, the recording interval id
(`recordingIntervalRef`), and whether a countdown `setTimeout` (awaited
inside `handleStartSequence`, for which the source stores no handle) is
pending. -/
structure CamResources where
  trackStopped : List Bool
  recordingIntervalId : Option Nat
  countdownTimeoutPending : Bool
deriving DecidableEq

/-- The `useEffect` cleanup run at teardown (src/components/
CameraCapture.tsx lines 69-76): stop every track of the held stream and
clear `recordingIntervalRef` if set. Nothing in the source references the
countdown's pending `setTimeout`, so it is left untouched. -/
def cleanupEffect (s : CamResources) : CamResources :=
  { s with
    trackStopped := s.trackStopped.map fun _ => true
    recordingIntervalId := none }

/-- Resources while the countdown is in progress: the video and audio
tracks are live, no recording interval is installed yet, and the
countdown's one-second `setTimeout` is pending. -/
def countdownInProgress : CamResources :=
  { trackStopped := [false, false]
    recordingIntervalId := none
    countdownTimeoutPending := true }

/-! ## Object-URL lifecycle (src/App.tsx, src/components/VideoUploader.tsx) -/

/-- Creation/revocation events on display object URLs, identified by
number. -/
inductive UrlEvent where
  | created (u : Nat)
  | revoked (u : Nat)
deriving DecidableEq

/-- `handleFileChange`/`handleDrop` accepting a file (src/components/
VideoUploader.tsx lines 12-32): `URL.createObjectURL` is called and the
result stored as the preview; no URL is revoked. -/
def uploaderSelectFile (u : Nat) : List UrlEvent :=
  [UrlEvent.created u]

/-- `clearSelection` (src/components/VideoUploader.tsx lines 34-39): the
preview is set to `null` and the input reset; `URL.revokeObjectURL` is
not called. -/
def uploaderClearSelection : List UrlEvent :=
  []

/-- Unmount of `VideoUploader`: the component registers no effect
cleanup, so no URL event occurs. -/
def uploaderUnmount : List UrlEvent :=
  []

/-- The `useEffect` cleanup in `App` (src/App.tsx lines 33-37), run when
`videoUrl` changes or the component unmounts: revoke the previous URL if
there was one. -/
def appVideoUrlCleanup : Option Nat → List UrlEvent
  | some u => [UrlEvent.revoked u]
  | none => []

/-- A full uploader pass: a file is selected (creating preview URL `u`),
the selection is cleared, the view is left. -/
def uploaderScenario (u : Nat) : List UrlEvent :=
  uploaderSelectFile u ++ uploaderClearSelection ++ uploaderUnmount

/-- `u` leaks in trace `es`: it was created but never revoked. -/
def urlLeaked (es : List UrlEvent) (u : Nat) : Bool :=
  es.contains (UrlEvent.created u) && !(es.contains (UrlEvent.revoked u))

/-! ## Concrete sample values used by witnesses and counterexamples -/

/-- A concrete staged video file. -/
def sampleFile : AppFile :=
  { name := "drill_recording.webm", mime := "video/webm" }

/-- The preview/analyze screen: a file is staged, no result, no error. -/
def previewState : AppState :=
  { status := AppStatus.IDLE
    inputMode := InputMode.MENU
    result := none
    selectedFile := some sampleFile
    videoUrl := some "blob:preview-1"
    errorMsg := none }

/-- The freshly loaded application state with nothing staged. -/
def emptyIdleState : AppState :=
  { status := AppStatus.IDLE
    inputMode := InputMode.MENU
    result := none
    selectedFile := none
    videoUrl := none
    errorMsg := none }

/-- The adapter's semantic-rejection response. -/
def errorResponse : AnalysisResponse :=
  { status := RespStatus.error }

/-- A success response with every optional field absent. -/
def bareSuccessResponse : AnalysisResponse :=
  { status := RespStatus.success }

/-- A thrown message that contains "429" but hits an earlier
classification branch. -/
def key429Msg : String :=
  "API key rejected with HTTP 429"

/-! ## Shared helper lemmas -/

/-- The unclear-video message falls through every marker branch of the
classifier and is re-displayed verbatim by the length fallback. -/
theorem classify_unclear_eq :
    classifyError unclearVideoMsg = unclearVideoMsg := by decide

/-! ## Claim theorems -/

/-- Claim C1. The spec says recording has a hard 10-second ceiling. On
the code, the interval updater only stops when `prev >= 10`, so the 10th
tick (10 seconds elapsed) still leaves the recorder running with no file
emitted; the auto-stop branch runs on the 11th tick, and only there: it
fires exactly once, emits exactly one file, and later ticks change
nothing; a manual early stop goes through the same `stopRecording`
finalize and also emits exactly one file. -/
theorem recording_auto_stop_on_eleventh_tick :
    (runTicks 10).isRecording = true ∧
    (runTicks 10).recorderActive = true ∧
    (runTicks 10).filesEmitted = 0 ∧
    (runTicks 10).autoStopCalls = 0 ∧
    (runTicks 10).recordingTime = 10 ∧
    (runTicks 11).recorderActive = false ∧
    (runTicks 11).isRecording = false ∧
    (runTicks 11).filesEmitted = 1 ∧
    (runTicks 11).autoStopCalls = 1 ∧
    runTicks 12 = runTicks 11 ∧
    (stopRecording (runTicks 3)).filesEmitted = 1 ∧
    (stopRecording (runTicks 3)).recorderActive = false ∧
    stopRecording (stopRecording (runTicks 3)) = stopRecording (runTicks 3) := by
  decide

/-- Claim C2: when the adapter resolves with a response whose status is
`error`, `handleAnalyze` ends in the `ERROR` phase carrying exactly the
fixed unclear-video / not-recognized-drill message, the result stays
`none`, and the result view's render guard is off. -/
theorem error_response_routes_to_error_phase
    (s : AppState) (f : AppFile) (data : AnalysisResponse)
    (hf : s.selectedFile = some f) (hres : s.result = none)
    (hd : data.status = RespStatus.error) :
    (handleAnalyze s (AdapterOutcome.ok data)).1.status = AppStatus.ERROR ∧
    (handleAnalyze s (AdapterOutcome.ok data)).1.errorMsg = some unclearVideoMsg ∧
    (handleAnalyze s (AdapterOutcome.ok data)).1.result = none ∧
    rendersResultView (handleAnalyze s (AdapterOutcome.ok data)).1 = false := by
  simp [handleAnalyze, hf, hd, applyCatch, classify_unclear_eq,
    rendersResultView, hres]

/-- Witness for C2 at the concrete preview state and the concrete
error-status response. -/
theorem error_response_routes_to_error_phase_witness :
    (handleAnalyze previewState (AdapterOutcome.ok errorResponse)).1.status = AppStatus.ERROR ∧
    (handleAnalyze previewState (AdapterOutcome.ok errorResponse)).1.errorMsg = some unclearVideoMsg ∧
    (handleAnalyze previewState (AdapterOutcome.ok errorResponse)).1.result = none ∧
    rendersResultView (handleAnalyze previewState (AdapterOutcome.ok errorResponse)).1 = false :=
  error_response_routes_to_error_phase previewState sampleFile errorResponse rfl rfl rfl

/-- Claim C3: on a success response, each absent optional field is
replaced by its neutral default (empty lists for strengths and
improvements, 0 for the score, "N/A" for the label), and the report
renderer is total on the defaulted view: it produces its four header
lines for every response and language. -/
theorem success_missing_fields_render_defaults
    (d : AnalysisResponse) (_h : d.status = RespStatus.success) :
    (d.key_strengths = none → (destructureResult d).key_strengths = []) ∧
    (d.areas_for_improvement = none →
      (destructureResult d).areas_for_improvement = []) ∧
    (d.form_score = none → (destructureResult d).form_score = 0) ∧
    (d.score_label = none → (destructureResult d).score_label = "N/A") ∧
    (∀ l : Lang, 4 ≤ (renderReport (destructureResult d) l).length) := by
  refine ⟨fun hh => by simp [destructureResult, hh],
    fun hh => by simp [destructureResult, hh],
    fun hh => by simp [destructureResult, hh],
    fun hh => by simp [destructureResult, hh],
    fun l => ?_⟩
  cases htd : (destructureResult d).technical_data with
  | none => simp [renderReport, htd]
  | some t => simp [renderReport, htd]

/-- Witness for C3 at the success response with every optional field
absent, read off at language `en`. -/
theorem success_missing_fields_render_defaults_witness :
    (destructureResult bareSuccessResponse).key_strengths = [] ∧
    (destructureResult bareSuccessResponse).areas_for_improvement = [] ∧
    (destructureResult bareSuccessResponse).form_score = 0 ∧
    (destructureResult bareSuccessResponse).score_label = "N/A" ∧
    4 ≤ (renderReport (destructureResult bareSuccessResponse) Lang.en).length :=
  ⟨(success_missing_fields_render_defaults bareSuccessResponse rfl).1 rfl,
   (success_missing_fields_render_defaults bareSuccessResponse rfl).2.1 rfl,
   (success_missing_fields_render_defaults bareSuccessResponse rfl).2.2.1 rfl,
   (success_missing_fields_render_defaults bareSuccessResponse rfl).2.2.2.1 rfl,
   (success_missing_fields_render_defaults bareSuccessResponse rfl).2.2.2.2 Lang.en⟩

/-- Claim C4. The teardown cleanup stops every acquired stream track and
clears the recording interval, but it holds no handle to the countdown's
awaited one-second `setTimeout`: with a countdown in progress, that
timeout is still pending after the cleanup runs, so it fires after
teardown. -/
theorem teardown_leaves_countdown_timeout_pending :
    (cleanupEffect countdownInProgress).trackStopped = [true, true] ∧
    (cleanupEffect countdownInProgress).recordingIntervalId = none ∧
    (cleanupEffect countdownInProgress).countdownTimeoutPending = true := by
  decide

/-- Claim C5: with the timer toggle on, the start sequence shows exactly
the five countdown values 5,4,3,2,1, plays one 800 Hz sine cue per tick
followed by the single higher-pitched 1200 Hz square cue, and the
recording start is the final event, after the whole countdown; with the
toggle off, the trace is just the recording start, with no tick and no
cue. -/
theorem countdown_five_ticks_then_recording :
    countdownValuesOf (handleStartSequenceTrace true) = [5, 4, 3, 2, 1] ∧
    beepsOf (handleStartSequenceTrace true) =
      [(800, "sine"), (800, "sine"), (800, "sine"), (800, "sine"),
       (800, "sine"), (1200, "square")] ∧
    eventsBeforeRecord (handleStartSequenceTrace true) ++ [CamEvent.recordStart] =
      handleStartSequenceTrace true ∧
    countdownValuesOf (eventsBeforeRecord (handleStartSequenceTrace true)) =
      [5, 4, 3, 2, 1] ∧
    (beepsOf (eventsBeforeRecord (handleStartSequenceTrace true))).length = 6 ∧
    handleStartSequenceTrace false = [CamEvent.recordStart] ∧
    countdownValuesOf (handleStartSequenceTrace false) = [] ∧
    beepsOf (handleStartSequenceTrace false) = [] := by
  decide

/-- Counterexample to claim C6 as stated: the thrown message
"API key rejected with HTTP 429" contains "429", yet the displayed
message is the configuration-error message, not the rate-limit message,
because the `api key` branch is checked first. -/
theorem msg_429_shows_config_message_counterexample :
    strContains (lowerStr key429Msg) "429" = true ∧
    (handleAnalyze previewState (AdapterOutcome.thrown key429Msg)).1.status = AppStatus.ERROR ∧
    (handleAnalyze previewState (AdapterOutcome.thrown key429Msg)).1.errorMsg = some configErrMsg ∧
    configErrMsg ≠ rateLimitMsg := by
  decide

/-- Claim C6 as amended: for every thrown message that contains "429"
(lower-cased) and contains none of the earlier-checked markers "api key",
"safety", "blocked", the application enters the error phase and displays
exactly the fixed rate-limit message. -/
theorem msg_429_maps_to_rate_limit
    (s : AppState) (f : AppFile) (msg : String)
    (hf : s.selectedFile = some f)
    (h429 : strContains (lowerStr msg) "429" = true)
    (hkey : strContains (lowerStr msg) "api key" = false)
    (hsafe : strContains (lowerStr msg) "safety" = false)
    (hblock : strContains (lowerStr msg) "blocked" = false) :
    (handleAnalyze s (AdapterOutcome.thrown msg)).1.status = AppStatus.ERROR ∧
    (handleAnalyze s (AdapterOutcome.thrown msg)).1.errorMsg = some rateLimitMsg := by
  simp [handleAnalyze, hf, applyCatch, classifyError, hkey, hsafe, hblock, h429]

/-- Witness for the amended C6 at the concrete message "HTTP error 429". -/
theorem msg_429_maps_to_rate_limit_witness :
    (handleAnalyze previewState (AdapterOutcome.thrown "HTTP error 429")).1.status = AppStatus.ERROR ∧
    (handleAnalyze previewState (AdapterOutcome.thrown "HTTP error 429")).1.errorMsg = some rateLimitMsg :=
  msg_429_maps_to_rate_limit previewState sampleFile "HTTP error 429" rfl
    (by decide) (by decide) (by decide) (by decide)

/-- Claim C7: with the credential absent (unset or empty, the JavaScript
`!apiKey` cases), `analyzeVideo` performs no step at all — in particular
it neither encodes the file nor issues a request — and fails with the
API-key message; the state controller classifies that message to the
dedicated configuration-error display. -/
theorem missing_api_key_fails_before_encoding
    (k : Option String) (reply : Except String AnalysisResponse)
    (hk : k.getD "" = "") :
    (analyzeVideoRun k reply).1 = [] ∧
    AnalyzeStep.encodeFile ∉ (analyzeVideoRun k reply).1 ∧
    AnalyzeStep.issueRequest ∉ (analyzeVideoRun k reply).1 ∧
    (analyzeVideoRun k reply).2 = Except.error apiKeyMissingMsg ∧
    classifyError apiKeyMissingMsg = configErrMsg ∧
    (handleAnalyze previewState (AdapterOutcome.thrown apiKeyMissingMsg)).1.status = AppStatus.ERROR ∧
    (handleAnalyze previewState (AdapterOutcome.thrown apiKeyMissingMsg)).1.errorMsg = some configErrMsg := by
  refine ⟨?_, ?_, ?_, ?_, by decide, by decide, by decide⟩ <;>
    simp [analyzeVideoRun, hk]

/-- Witness for C7 at the unset credential. -/
theorem missing_api_key_fails_before_encoding_witness :
    (analyzeVideoRun none (Except.error "network")).1 = [] ∧
    AnalyzeStep.encodeFile ∉ (analyzeVideoRun none (Except.error "network")).1 ∧
    AnalyzeStep.issueRequest ∉ (analyzeVideoRun none (Except.error "network")).1 ∧
    (analyzeVideoRun none (Except.error "network")).2 = Except.error apiKeyMissingMsg ∧
    classifyError apiKeyMissingMsg = configErrMsg ∧
    (handleAnalyze previewState (AdapterOutcome.thrown apiKeyMissingMsg)).1.status = AppStatus.ERROR ∧
    (handleAnalyze previewState (AdapterOutcome.thrown apiKeyMissingMsg)).1.errorMsg = some configErrMsg :=
  missing_api_key_fails_before_encoding none (Except.error "network") rfl

/-- Claim C8: after any file selection (capture or upload), from any
prior state, the controller holds phase `IDLE`, the new file staged, the
fresh display URL, and neither a result nor an error message. -/
theorem file_select_resets_state (s : AppState) (f : AppFile) (url : String) :
    (handleFileSelect s f url).status = AppStatus.IDLE ∧
    (handleFileSelect s f url).selectedFile = some f ∧
    (handleFileSelect s f url).result = none ∧
    (handleFileSelect s f url).errorMsg = none ∧
    (handleFileSelect s f url).videoUrl = some url :=
  ⟨rfl, rfl, rfl, rfl, rfl⟩

/-- Claim C9. `App`'s effect cleanup does revoke its superseded URL, but
`VideoUploader` creates its own preview URL and neither `clearSelection`
nor unmount revokes it: in the select-clear-leave scenario the created
URL is never revoked. -/
theorem uploader_preview_url_dropped_without_revocation :
    urlLeaked (uploaderScenario 1) 1 = true ∧
    UrlEvent.created 1 ∈ uploaderScenario 1 ∧
    UrlEvent.revoked 1 ∉ uploaderScenario 1 ∧
    appVideoUrlCleanup (some 2) = [UrlEvent.revoked 2] := by
  decide

/-- Claim C10: invoking analyze with no staged file changes nothing — the
guard returns before any state update and before the adapter is invoked. -/
theorem analyze_without_file_is_noop
    (s : AppState) (o : AdapterOutcome) (h : s.selectedFile = none) :
    handleAnalyze s o = (s, false) := by
  simp [handleAnalyze, h]

/-- Witness for C10 at the empty idle state. -/
theorem analyze_without_file_is_noop_witness :
    handleAnalyze emptyIdleState (AdapterOutcome.thrown "boom") =
      (emptyIdleState, false) :=
  analyze_without_file_is_noop emptyIdleState (AdapterOutcome.thrown "boom") rfl

end Striker
